import Mathlib

/-!
Shallow embedding of the cluster-specification Validator & Defaulting Engine of
weave-gitops-enterprise (the `config` package exercised by the test oracle in
`src/ui-cra/src/components/LoadingError.tsx`).  The validator and defaulter
implementations themselves are not part of the provided sources — only their
tests are — so each operation below is modelled from the specification
(spec.md §3–§4) and checked against the literal expectations of the in-repo
tests (TestRequiredGlobals, TestRequiredEKSValues, TestInvalidWKSValues,
TestRequiredSSHValues, TestRequiredFootlooseValues,
TestValidateSealedSecretsValues, TestDefaultGlobals, TestDefaultEKSValues,
TestDefaultSSHValues).

Conventions of the embedding:
* a Go `error` return is `Option String`: `none` is the nil error (success),
  `some msg` is an error whose `fmt.Sprintf` rendering is `msg`;
* the filesystem-existence collaborator (spec.md §6, `path → bool`) is an
  explicit parameter `fileExists : String → Bool`;
* the PEM key/certificate pairing verifier (spec.md §6) is an explicit
  parameter `pairMatches : String → String → Bool` on the key and
  certificate paths;
* environment lookups (`USER`, `HOME`, spec.md §6) are explicit string
  parameters, the empty string standing for an unset variable (as with Go's
  `os.Getenv`);
* optional integer fields (`desiredCapacity`, machine ports) are `Option Int`
  (`none` = omitted by the operator); optional string fields use the empty
  string as the omitted value, as in the Go structs the tests unmarshal into.
-/

namespace WKConfig

/-- A managed-cloud (EKS) node group: spec.md §3, `nodeGroups` entries
`{name optional, instanceType, desiredCapacity optional integer}`. -/
structure NodeGroup where
  name : String
  instanceType : String
  desiredCapacity : Option Int
deriving DecidableEq, Inhabited

/-- Managed-cloud (EKS) sub-configuration: spec.md §3 `managedCloudConfig`. -/
structure EKSConfig where
  kubernetesVersion : String
  clusterRegion : String
  managedNodeGroupFile : String
  nodeGroups : List NodeGroup
deriving DecidableEq, Inhabited

/-- A remote-shell machine entry: spec.md §3, `machines` entries
`{role, publicAddress, privateAddress optional, publicPort optional,
privatePort optional}`. -/
structure Machine where
  role : String
  publicAddress : String
  privateAddress : String
  publicPort : Option Int
  privatePort : Option Int
deriving DecidableEq, Inhabited

/-- Remote-shell (SSH) sub-configuration: spec.md §3 `remoteShellConfig`. -/
structure SSHConfig where
  sshUser : String
  sshKeyFile : String
  machines : List Machine
deriving DecidableEq, Inhabited

/-- Virtual-node (footloose) sub-configuration: spec.md §3
`virtualNodeConfig` with `backend`, `controlPlaneNodeCount`
(`controlPlaneNodes` in the tests) and `workerNodeCount` (`workerNodes`). -/
structure FootlooseConfig where
  backend : String
  controlPlaneNodes : Int
  workerNodes : Int
deriving DecidableEq, Inhabited

/-- Fleet (WKS) sub-configuration shared by the two self-managed tracks:
spec.md §3 `fleetConfig`, field names as in the test YAML
(`controlPlaneLbAddress` for `controlPlaneLoadBalancerAddress`). -/
structure WKSConfig where
  kubernetesVersion : String
  serviceCIDRBlocks : List String
  podCIDRBlocks : List String
  controlPlaneLbAddress : String
  sshConfig : SSHConfig
  footlooseConfig : FootlooseConfig
deriving DecidableEq, Inhabited

/-- The root ClusterSpecification: spec.md §3, field names as in the test
YAML (`dockerIOUser` for `registryUser`, `dockerIOPasswordFile` for
`registryPasswordFile`, `gitUrl` for `gitRepositoryURL`). -/
structure Config where
  track : String
  clusterName : String
  dockerIOUser : String
  dockerIOPasswordFile : String
  gitProvider : String
  gitUrl : String
  gitProviderOrg : String
  sealedSecretsCertificate : String
  sealedSecretsPrivateKey : String
  eksConfig : EKSConfig
  wksConfig : WKSConfig
deriving DecidableEq, Inhabited

/-- Modelled from the spec: the Global Validator `checkRequiredGlobalValues`
(spec.md §4.1), whose implementation is absent from the provided sources; the
error texts are the literal expectations of TestRequiredGlobals.  In order:
empty track, unrecognized track, empty registry user, empty registry
password-file path (no filesystem check here), else success. -/
def checkRequiredGlobalValues (c : Config) : Option String :=
  if c.track = "" then
    some "track must be specified"
  else if c.track ≠ "eks" ∧ c.track ≠ "wks-ssh" ∧ c.track ≠ "wks-footloose" then
    some "track must be one of: \x27eks\x27, \x27wks-ssh\x27, or \x27wks-footloose\x27"
  else if c.dockerIOUser = "" then
    some "dockerIOUser must be specified"
  else if c.dockerIOPasswordFile = "" then
    some "dockerIOPasswordFile must be specified"
  else
    none

/-- The `validTrackEKS` fixture of TestRequiredGlobals. -/
def validTrackEKS : Config :=
  { (default : Config) with
      track := "eks"
      clusterName := ""
      dockerIOUser := "TheodoreLogan"
      dockerIOPasswordFile := "testdata/passwordFile" }

/-- The `invalidTrack` fixture of TestRequiredGlobals (track "footlose"). -/
def invalidTrack : Config :=
  { validTrackEKS with track := "footlose" }

/-- Modelled from the spec: the Sealed-Secrets Validator
`validateSealedSecretsValues` (spec.md §4.3), whose implementation is absent
from the provided sources.  `pairMatches key cert` is the collaborator that
loads the PEM files at the two paths and verifies that the private key
corresponds to the certificate's public key (spec.md §6).  Both paths empty →
success (feature disabled); exactly one non-empty → the "please provide both"
error; both present but the pair does not match → "could not load key and
certificate pair"; both present and matching → success.  Error texts per
TestValidateSealedSecretsValues. -/
def validateSealedSecretsValues (pairMatches : String → String → Bool)
    (c : Config) : Option String :=
  if c.sealedSecretsCertificate = "" ∧ c.sealedSecretsPrivateKey = "" then
    none
  else if c.sealedSecretsCertificate = "" ∨ c.sealedSecretsPrivateKey = "" then
    some "please provide both the private key and certificate for the sealed secrets controller"
  else if ¬ pairMatches c.sealedSecretsPrivateKey c.sealedSecretsCertificate then
    some "could not load key and certificate pair"
  else
    none

/-- A node group whose `desiredCapacity` is set (non-`none`) and below 1
(spec.md §4.4). -/
def hasBadCapacity (ng : NodeGroup) : Bool :=
  match ng.desiredCapacity with
  | some n => n < 1
  | none => false

/-- Modelled from the spec: the Managed-Cloud Validator
`checkRequiredEKSValues` (spec.md §4.4), whose implementation is absent from
the provided sources; error texts per TestRequiredEKSValues.  In order: empty
version, empty region, version outside the exact set {"1.14","1.15"}, a set
`managedNodeGroupFile` that does not exist on the filesystem collaborator,
and any node group whose `desiredCapacity` is set below 1. -/
def checkRequiredEKSValues (fileExists : String → Bool)
    (c : EKSConfig) : Option String :=
  if c.kubernetesVersion = "" then
    some "A Kubernetes version must be specified"
  else if c.clusterRegion = "" then
    some "clusterRegion must be specified"
  else if c.kubernetesVersion ≠ "1.14" ∧ c.kubernetesVersion ≠ "1.15" then
    some "Kubernetes version must be one of: \"1.14\" or \"1.15\""
  else if c.managedNodeGroupFile ≠ "" ∧ ¬ fileExists c.managedNodeGroupFile then
    some ("no file found at path: \"" ++ c.managedNodeGroupFile
      ++ "\" for field: \"managedNodeGroupFile\"")
  else if c.nodeGroups.any hasBadCapacity then
    some "A node group must have a capacity of at least 1"
  else
    none

/-- Splitting a character list at every occurrence of a separator, keeping
empty segments — the character-level behaviour of splitting a string on a
one-character separator.  `acc` holds the current segment, reversed. -/
def splitSepAux (sep : Char) : List Char → List Char → List (List Char)
  | [], acc => [acc.reverse]
  | ch :: rest, acc =>
    if ch = sep then acc.reverse :: splitSepAux sep rest []
    else splitSepAux sep rest (ch :: acc)

/-- Splits a string's characters on a separator character. -/
def splitSep (sep : Char) (s : String) : List (List Char) :=
  splitSepAux sep s.toList []

/-- Parses a nonempty all-digit character sequence as a decimal natural. -/
def charsToNat? (cs : List Char) : Option Nat :=
  if cs ≠ [] ∧ cs.all Char.isDigit then
    some (cs.foldl (fun acc ch => acc * 10 + (ch.toNat - 48)) 0)
  else
    none

/-- Primitive validator (spec.md §2): Kubernetes semantic version parsing at
patch level, `major.minor.patch` with numeric components. -/
def parseVersion (s : String) : Option (Nat × Nat × Nat) :=
  match splitSep '.' s with
  | [a, b, c] =>
    match charsToNat? a, charsToNat? b, charsToNat? c with
    | some x, some y, some z => some (x, y, z)
    | _, _, _ => none
  | _ => none

/-- Primitive validator (spec.md §2, §4.5): membership of a version string in
the inclusive fleet range 1.14.x–1.15.x, by semantic patch-level comparison
(1.14.0 ≤ v ≤ 1.15.x, i.e. major 1 and minor 14 or 15). -/
def versionInRange (s : String) : Bool :=
  match parseVersion s with
  | some (x, y, _) => x = 1 ∧ (y = 14 ∨ y = 15)
  | none => false

/-- One numeric IPv4 octet: digits parsing to a value of at most 255. -/
def isValidOctet (cs : List Char) : Bool :=
  match charsToNat? cs with
  | some n => n ≤ 255
  | none => false

/-- Primitive validator (spec.md §2): IPv4 dotted-quad syntax — four numeric
octets, each at most 255. -/
def isValidIPv4 (s : String) : Bool :=
  match splitSep '.' s with
  | [a, b, c, d] => [a, b, c, d].all isValidOctet
  | _ => false

/-- Primitive validator (spec.md §2, §4.5): CIDR-block syntax — an IPv4
network address, a slash, and a numeric prefix length of at most 32. -/
def isValidCIDR (s : String) : Bool :=
  match splitSep '/' s with
  | [ip, len] =>
    isValidIPv4 (String.mk ip) &&
      match charsToNat? len with
      | some n => n ≤ 32
      | none => false
  | _ => false

/-- Primitive validator (spec.md §4.5): one DNS label — nonempty, at most 63
characters, alphanumerics and internal hyphens only, no leading or trailing
hyphen. -/
def isValidDomainLabel (cs : List Char) : Bool :=
  1 ≤ cs.length && cs.length ≤ 63 &&
    (cs.all fun ch => ch.isAlphanum || ch = '-') &&
    (match cs.head? with
     | some ch => ch ≠ '-'
     | none => false) &&
    (match cs.getLast? with
     | some ch => ch ≠ '-'
     | none => false)

/-- Primitive validator (spec.md §4.5): DNS domain-name syntax — a nonempty
dot-separated sequence of valid labels within the standard 253-character
overall limit, whose final (top-level) label is not all-numeric.  The
not-all-numeric top-level rule is the standard DNS-name constraint
(RFC 3696 §2) and is what the test oracle pins down: TestInvalidWKSValues
requires the all-numeric "192.1680.1.0" to fail the control-plane address
check (it is not a valid IPv4 address either), while "hello-World.com" must
pass. -/
def isValidDomainName (s : String) : Bool :=
  s ≠ "" && s.toList.length ≤ 253 &&
    (splitSep '.' s).all isValidDomainLabel &&
    (match (splitSep '.' s).getLast? with
     | some tld => ! tld.all Char.isDigit
     | none => false)

/-- Modelled from the spec: the shared Fleet Validator
`checkRequiredWKSValues` (spec.md §4.5), whose implementation is absent from
the provided sources; error texts per TestInvalidWKSValues (the offending
version / CIDR / address value is interpolated verbatim, without surrounding
quotes).  In order: empty version, empty service CIDR list, empty pod CIDR
list, version outside 1.14.x–1.15.x, first entry of the service then pod CIDR
sequences that fails the CIDR check, and a set control-plane load-balancer
address that is neither a valid IPv4 address nor a valid domain name. -/
def checkRequiredWKSValues (c : WKSConfig) : Option String :=
  if c.kubernetesVersion = "" then
    some "A Kubernetes version must be specified"
  else if c.serviceCIDRBlocks = [] then
    some "At least one service CIDR block must be specified"
  else if c.podCIDRBlocks = [] then
    some "At least one pod CIDR block must be specified"
  else if ¬ versionInRange c.kubernetesVersion then
    some (c.kubernetesVersion
      ++ " is not a valid Kubernetes version; must be 1.14.x-1.15.x")
  else
    match (c.serviceCIDRBlocks ++ c.podCIDRBlocks).find? fun b => ! isValidCIDR b with
    | some b => some (b ++ " is not a valid CIDR specification")
    | none =>
      if c.controlPlaneLbAddress ≠ "" ∧ ¬ isValidIPv4 c.controlPlaneLbAddress
          ∧ ¬ isValidDomainName c.controlPlaneLbAddress then
        some (c.controlPlaneLbAddress
          ++ " is not a valid control plane load balancer address; must be a valid IP address or a domain name")
      else
        none

/-- Modelled from the spec: the per-machine role scan of the Remote-Shell
Validator (spec.md §4.5).  Machines are examined in sequence order; a machine
with an empty role, or with a role outside {master, worker}, stops the scan
with the corresponding error.  The test oracle (TestRequiredSSHValues rows
`missingRole` and `invalidRole`, whose machine lists contain no master at
all) fixes that this scan runs before the master/worker presence count. -/
def checkMachineRoles : List Machine → Option String
  | [] => none
  | m :: rest =>
    if m.role = "" then
      some "A role (\x27master\x27 or \x27worker\x27) must be specified for each machine"
    else if m.role ≠ "master" ∧ m.role ≠ "worker" then
      some ("Invalid machine role: \x27" ++ m.role
        ++ "\x27. Only \x27master\x27 and \x27worker\x27 are valid.")
    else
      checkMachineRoles rest

/-- Number of machines carrying the given role. -/
def countRole (r : String) (ms : List Machine) : Nat :=
  (ms.filter fun m => m.role = r).length

/-- Modelled from the spec: the Remote-Shell Validator
`checkRequiredSSHValues` (spec.md §4.5), whose implementation is absent from
the provided sources; error texts per TestRequiredSSHValues.  In order: empty
machine list; the per-machine role scan (`checkMachineRoles`); at least one
master and one worker present; a set `sshKeyFile` must exist on the
filesystem collaborator. -/
def checkRequiredSSHValues (fileExists : String → Bool)
    (c : SSHConfig) : Option String :=
  if c.machines = [] then
    some "No machine information provided"
  else
    match checkMachineRoles c.machines with
    | some e => some e
    | none =>
      if countRole "master" c.machines = 0 ∨ countRole "worker" c.machines = 0 then
        some "Invalid machine set. At least one master and one worker must be specified."
      else if c.sshKeyFile ≠ "" ∧ ¬ fileExists c.sshKeyFile then
        some ("no file found at path: \"" ++ c.sshKeyFile
          ++ "\" for field: \"sshKeyFile\"")
      else
        none

/-- Modelled from the spec: the Virtual-Node Validator
`checkRequiredFootlooseValues` (spec.md §4.5), whose implementation is absent
from the provided sources; error texts per TestRequiredFootlooseValues.  The
abstract backend enum {container, micro-vm} of spec.md §3 is realized by the
backend identifiers "docker" and "ignite" (spec.md §4.5: labels as named by
the target environment's backend identifiers).  In order: empty backend,
backend outside {docker, ignite}, control-plane node count below 1, worker
node count below 1. -/
def checkRequiredFootlooseValues (c : FootlooseConfig) : Option String :=
  if c.backend = "" then
    some "A footloose backend must be specified"
  else if c.backend ≠ "docker" ∧ c.backend ≠ "ignite" then
    some "A footloose backend must be either \x27docker\x27 or \x27ignite\x27"
  else if c.controlPlaneNodes < 1 then
    some "A footloose specification must have at least one control plane node"
  else if c.workerNodes < 1 then
    some "A footloose specification must have at least one worker node"
  else
    none

/-- Modelled from the spec: the Global Defaulter `setDefaultGlobalValues`
(spec.md §6 and TestDefaultGlobals).  `userEnv` is the value of the USER
environment lookup ("" when unset).  An empty `clusterName` is set to
"wk-" followed by the current user, falling back to the literal "cluster"
when the user is unavailable. -/
def setDefaultGlobalValues (userEnv : String) (c : Config) : Config :=
  if c.clusterName = "" then
    { c with clusterName := "wk-" ++ (if userEnv = "" then "cluster" else userEnv) }
  else
    c

/-- Modelled from the spec: per-group defaulting of the Managed-Cloud
Defaulter (spec.md §4.4).  A group at index `i` missing a name is assigned
"ng-<i>"; a missing `desiredCapacity` is assigned 3; `instanceType` is
preserved as given. -/
def defaultNodeGroup (i : Nat) (ng : NodeGroup) : NodeGroup :=
  { ng with
      name := if ng.name = "" then "ng-" ++ toString i else ng.name
      desiredCapacity :=
        match ng.desiredCapacity with
        | none => some 3
        | some n => some n }

/-- The index-carrying loop over the node groups, starting at index `i`. -/
def defaultNodeGroupsFrom (i : Nat) : List NodeGroup → List NodeGroup
  | [] => []
  | ng :: rest => defaultNodeGroup i ng :: defaultNodeGroupsFrom (i + 1) rest

/-- Modelled from the spec: the Managed-Cloud Defaulter `setDefaultEKSValues`
(spec.md §4.4 and TestDefaultEKSValues).  An empty `nodeGroups` is replaced
by exactly the one synthesized group {name "ng-0", instanceType "m5.large",
desiredCapacity 3}; otherwise each group is defaulted in place by index. -/
def setDefaultEKSValues (c : EKSConfig) : EKSConfig :=
  if c.nodeGroups = [] then
    { c with nodeGroups := [{ name := "ng-0", instanceType := "m5.large",
                              desiredCapacity := some 3 }] }
  else
    { c with nodeGroups := defaultNodeGroupsFrom 0 c.nodeGroups }

/-- Modelled from the spec: per-machine defaulting of the Remote-Shell
Defaulter (spec.md §4.5).  Omitted public/private ports become 22; an
omitted private address becomes the machine's own public address. -/
def defaultMachine (m : Machine) : Machine :=
  { m with
      publicPort :=
        match m.publicPort with
        | none => some 22
        | some p => some p
      privatePort :=
        match m.privatePort with
        | none => some 22
        | some p => some p
      privateAddress :=
        if m.privateAddress = "" then m.publicAddress else m.privateAddress }

/-- Modelled from the spec: the Remote-Shell Defaulter `setDefaultSSHValues`
(spec.md §4.5 and TestDefaultSSHValues).  `homeDir` is the HOME environment
lookup.  An omitted `sshUser` becomes "root"; an omitted `sshKeyFile`
becomes `<home-directory>/.ssh/id_rsa`; each machine is defaulted by
`defaultMachine`. -/
def setDefaultSSHValues (homeDir : String) (c : SSHConfig) : SSHConfig :=
  { c with
      sshUser := if c.sshUser = "" then "root" else c.sshUser
      sshKeyFile :=
        if c.sshKeyFile = "" then homeDir ++ "/.ssh/id_rsa" else c.sshKeyFile
      machines := c.machines.map defaultMachine }

/-- C1: the Global Validator returns, in order: "track must be specified" on
an empty track; the exact three-value message on an unrecognized track (so
the literal track "footlose" gets exactly that message); "dockerIOUser must
be specified" on an empty registry user; "dockerIOPasswordFile must be
specified" on an empty registry password-file path; and success for each of
the three valid tracks with both registry fields non-empty, in particular on
the literal input {track:"eks", registryUser:"TheodoreLogan",
registryPasswordFile:"testdata/passwordFile"}. -/
theorem checkRequiredGlobalValues_contract (c : Config) :
    (c.track = "" → checkRequiredGlobalValues c = some "track must be specified") ∧
    (c.track ≠ "" → c.track ≠ "eks" → c.track ≠ "wks-ssh" → c.track ≠ "wks-footloose" →
      checkRequiredGlobalValues c =
        some "track must be one of: \x27eks\x27, \x27wks-ssh\x27, or \x27wks-footloose\x27") ∧
    ((c.track = "eks" ∨ c.track = "wks-ssh" ∨ c.track = "wks-footloose") →
      c.dockerIOUser = "" →
      checkRequiredGlobalValues c = some "dockerIOUser must be specified") ∧
    ((c.track = "eks" ∨ c.track = "wks-ssh" ∨ c.track = "wks-footloose") →
      c.dockerIOUser ≠ "" → c.dockerIOPasswordFile = "" →
      checkRequiredGlobalValues c = some "dockerIOPasswordFile must be specified") ∧
    ((c.track = "eks" ∨ c.track = "wks-ssh" ∨ c.track = "wks-footloose") →
      c.dockerIOUser ≠ "" → c.dockerIOPasswordFile ≠ "" →
      checkRequiredGlobalValues c = none) ∧
    checkRequiredGlobalValues validTrackEKS = none ∧
    checkRequiredGlobalValues invalidTrack =
      some "track must be one of: \x27eks\x27, \x27wks-ssh\x27, or \x27wks-footloose\x27" := by
  refine ⟨?_, ?_, ?_, ?_, ?_, by decide, by decide⟩
  · intro h; simp [checkRequiredGlobalValues, h]
  · intro h0 h1 h2 h3; simp [checkRequiredGlobalValues, h0, h1, h2, h3]
  · rintro (h | h | h) hu <;> simp [checkRequiredGlobalValues, h, hu]
  · rintro (h | h | h) hu hp <;> simp [checkRequiredGlobalValues, h, hu, hp]
  · rintro (h | h | h) hu hp <;> simp [checkRequiredGlobalValues, h, hu, hp]

/-- Closed instance of C1: the two literal scenarios, obtained from the
contract theorem with its hypotheses discharged at the `validTrackEKS` and
`invalidTrack` fixtures. -/
theorem checkRequiredGlobalValues_contract_witness :
    checkRequiredGlobalValues validTrackEKS = none ∧
    checkRequiredGlobalValues invalidTrack =
      some "track must be one of: \x27eks\x27, \x27wks-ssh\x27, or \x27wks-footloose\x27" :=
  ⟨(checkRequiredGlobalValues_contract validTrackEKS).2.2.2.2.1
      (Or.inl rfl) (by decide) (by decide),
   (checkRequiredGlobalValues_contract invalidTrack).2.1
      (by decide) (by decide) (by decide) (by decide)⟩

/-- The trivial filesystem collaborator on which no path exists. -/
def noFileExists : String → Bool := fun _ => false

/-- EKS fixture with the out-of-set version "1.16" (the `invalidK8sVersion`
fixture of TestRequiredEKSValues). -/
def invalidK8sVersionEKS : EKSConfig :=
  { kubernetesVersion := "1.16", clusterRegion := "eu-north-1",
    managedNodeGroupFile := "", nodeGroups := [] }

/-- C2: the Managed-Cloud Validator returns, in order: the missing-version
message, the missing-region message, the exact-set version message for any
version outside {"1.14","1.15"} (hence for "1.16" and for any x.y.z form
such as "1.14.1"), the no-file message for a set `managedNodeGroupFile` that
does not exist, and the capacity message when some node group's
`desiredCapacity` is set below 1; otherwise success. -/
theorem checkRequiredEKSValues_contract (fe : String → Bool) (c : EKSConfig) :
    (c.kubernetesVersion = "" →
      checkRequiredEKSValues fe c = some "A Kubernetes version must be specified") ∧
    (c.kubernetesVersion ≠ "" → c.clusterRegion = "" →
      checkRequiredEKSValues fe c = some "clusterRegion must be specified") ∧
    (c.kubernetesVersion ≠ "" → c.clusterRegion ≠ "" →
      c.kubernetesVersion ≠ "1.14" → c.kubernetesVersion ≠ "1.15" →
      checkRequiredEKSValues fe c =
        some "Kubernetes version must be one of: \"1.14\" or \"1.15\"") ∧
    ((c.kubernetesVersion = "1.14" ∨ c.kubernetesVersion = "1.15") →
      c.clusterRegion ≠ "" →
      c.managedNodeGroupFile ≠ "" → fe c.managedNodeGroupFile = false →
      checkRequiredEKSValues fe c =
        some ("no file found at path: \"" ++ c.managedNodeGroupFile
          ++ "\" for field: \"managedNodeGroupFile\"")) ∧
    (∀ ng ∈ c.nodeGroups, ∀ n : Int,
      (c.kubernetesVersion = "1.14" ∨ c.kubernetesVersion = "1.15") →
      c.clusterRegion ≠ "" →
      (c.managedNodeGroupFile = "" ∨ fe c.managedNodeGroupFile = true) →
      ng.desiredCapacity = some n → n < 1 →
      checkRequiredEKSValues fe c =
        some "A node group must have a capacity of at least 1") ∧
    ((c.kubernetesVersion = "1.14" ∨ c.kubernetesVersion = "1.15") →
      c.clusterRegion ≠ "" →
      (c.managedNodeGroupFile = "" ∨ fe c.managedNodeGroupFile = true) →
      (∀ ng ∈ c.nodeGroups, ∀ n : Int, ng.desiredCapacity = some n → 1 ≤ n) →
      checkRequiredEKSValues fe c = none) ∧
    checkRequiredEKSValues noFileExists invalidK8sVersionEKS =
      some "Kubernetes version must be one of: \"1.14\" or \"1.15\"" ∧
    checkRequiredEKSValues noFileExists
        { invalidK8sVersionEKS with kubernetesVersion := "1.14.1" } =
      some "Kubernetes version must be one of: \"1.14\" or \"1.15\"" := by
  refine ⟨?_, ?_, ?_, ?_, ?_, ?_, by decide, by decide⟩
  · intro h; simp [checkRequiredEKSValues, h]
  · intro h0 h1; simp [checkRequiredEKSValues, h0, h1]
  · intro h0 h1 h2 h3; simp [checkRequiredEKSValues, h0, h1, h2, h3]
  · rintro (h | h) hr hf hfe <;> simp [checkRequiredEKSValues, h, hr, hf, hfe]
  · rintro ng hng n (h | h) hr hf hcap hn <;>
    · have hany : c.nodeGroups.any hasBadCapacity = true :=
        List.any_eq_true.mpr ⟨ng, hng, by simp [hasBadCapacity, hcap]; exact hn⟩
      rcases hf with hf | hf <;> simp [checkRequiredEKSValues, h, hr, hf, hany]
  · rintro (h | h) hr hf hok <;>
    · have hany : c.nodeGroups.any hasBadCapacity = false := by
        rw [List.any_eq_false]
        intro ng hng
        cases hcap : ng.desiredCapacity with
        | none => simp [hasBadCapacity, hcap]
        | some n =>
          have := hok ng hng n hcap
          simp [hasBadCapacity, hcap]
          omega
      rcases hf with hf | hf <;> simp [checkRequiredEKSValues, h, hr, hf, hany]

/-- Closed instance of C2: the contract applied at the "1.16" fixture and at
a fixture carrying one node group of desired capacity -1, with every
hypothesis discharged concretely. -/
theorem checkRequiredEKSValues_contract_witness :
    checkRequiredEKSValues noFileExists invalidK8sVersionEKS =
      some "Kubernetes version must be one of: \"1.14\" or \"1.15\"" ∧
    checkRequiredEKSValues noFileExists
        { kubernetesVersion := "1.14", clusterRegion := "eu-north-1",
          managedNodeGroupFile := "",
          nodeGroups := [{ name := "my-second-node-group",
                           instanceType := "m5.large",
                           desiredCapacity := some (-1) }] } =
      some "A node group must have a capacity of at least 1" :=
  ⟨(checkRequiredEKSValues_contract noFileExists invalidK8sVersionEKS).2.2.1
      (by decide) (by decide) (by decide) (by decide),
   (checkRequiredEKSValues_contract noFileExists _).2.2.2.2.1
      { name := "my-second-node-group", instanceType := "m5.large",
        desiredCapacity := some (-1) }
      (by decide) (-1) (Or.inl rfl) (by decide) (Or.inl rfl) rfl (by decide)⟩

/-- The `invalidWKSK8sVersion` fixture of TestInvalidWKSValues: fleet config
with version "1.16.1" and valid CIDR blocks. -/
def invalidWKSK8sVersion : WKSConfig :=
  { kubernetesVersion := "1.16.1", serviceCIDRBlocks := ["10.96.0.0/12"],
    podCIDRBlocks := ["192.168.1.0/16"], controlPlaneLbAddress := "",
    sshConfig := default, footlooseConfig := default }

/-- C3 counterexample: on the fleet fixture with version "1.16.1" the Fleet
Validator's message interpolates the version verbatim — it is NOT enclosed
in double quotes, contradicting the claim's quoting requirement (the in-repo
test TestInvalidWKSValues expects the unquoted text). -/
theorem checkRequiredWKSValues_unquoted_counterexample :
    checkRequiredWKSValues invalidWKSK8sVersion =
      some "1.16.1 is not a valid Kubernetes version; must be 1.14.x-1.15.x" ∧
    checkRequiredWKSValues invalidWKSK8sVersion ≠
      some "\"1.16.1\" is not a valid Kubernetes version; must be 1.14.x-1.15.x" := by
  decide

/-- C3 (amended): the Fleet Validator returns, in order: the missing-version
message; the missing service-CIDR message; the missing pod-CIDR message; for
a version outside 1.14.x–1.15.x (semantic patch-level comparison, so
"1.16.1" is rejected and "1.14.1" accepted) the message
`<version> is not a valid Kubernetes version; must be 1.14.x-1.15.x` with
the version interpolated verbatim (not quoted); for the first entry of the
service-then-pod CIDR sequences failing the network-address/prefix-length
parse (e.g. "1000.96.0.0/12", "192.1680.1.0/16") the message
`<value> is not a valid CIDR specification` (value verbatim, not quoted);
and for a set control-plane load-balancer address that is neither a valid
IPv4 address nor a syntactically valid DNS domain name (per-label
alphanumerics with internal hyphens only and a not-all-numeric top-level
label, so "hello-World-.com" and the all-numeric "192.1680.1.0" are
rejected while "hello-World.com" is accepted) the message
`<value> is not a valid control plane load balancer address; must be a valid
IP address or a domain name`; otherwise success. -/
theorem checkRequiredWKSValues_contract (c : WKSConfig) :
    (c.kubernetesVersion = "" →
      checkRequiredWKSValues c = some "A Kubernetes version must be specified") ∧
    (c.kubernetesVersion ≠ "" → c.serviceCIDRBlocks = [] →
      checkRequiredWKSValues c =
        some "At least one service CIDR block must be specified") ∧
    (c.kubernetesVersion ≠ "" → c.serviceCIDRBlocks ≠ [] → c.podCIDRBlocks = [] →
      checkRequiredWKSValues c =
        some "At least one pod CIDR block must be specified") ∧
    (c.kubernetesVersion ≠ "" → c.serviceCIDRBlocks ≠ [] → c.podCIDRBlocks ≠ [] →
      versionInRange c.kubernetesVersion = false →
      checkRequiredWKSValues c =
        some (c.kubernetesVersion
          ++ " is not a valid Kubernetes version; must be 1.14.x-1.15.x")) ∧
    (∀ b : String,
      c.kubernetesVersion ≠ "" → c.serviceCIDRBlocks ≠ [] → c.podCIDRBlocks ≠ [] →
      versionInRange c.kubernetesVersion = true →
      (c.serviceCIDRBlocks ++ c.podCIDRBlocks).find? (fun x => ! isValidCIDR x)
        = some b →
      checkRequiredWKSValues c = some (b ++ " is not a valid CIDR specification")) ∧
    (c.kubernetesVersion ≠ "" → c.serviceCIDRBlocks ≠ [] → c.podCIDRBlocks ≠ [] →
      versionInRange c.kubernetesVersion = true →
      (∀ b ∈ c.serviceCIDRBlocks ++ c.podCIDRBlocks, isValidCIDR b = true) →
      c.controlPlaneLbAddress ≠ "" →
      isValidIPv4 c.controlPlaneLbAddress = false →
      isValidDomainName c.controlPlaneLbAddress = false →
      checkRequiredWKSValues c =
        some (c.controlPlaneLbAddress
          ++ " is not a valid control plane load balancer address; must be a valid IP address or a domain name")) ∧
    (c.kubernetesVersion ≠ "" → c.serviceCIDRBlocks ≠ [] → c.podCIDRBlocks ≠ [] →
      versionInRange c.kubernetesVersion = true →
      (∀ b ∈ c.serviceCIDRBlocks ++ c.podCIDRBlocks, isValidCIDR b = true) →
      (c.controlPlaneLbAddress = "" ∨ isValidIPv4 c.controlPlaneLbAddress = true
        ∨ isValidDomainName c.controlPlaneLbAddress = true) →
      checkRequiredWKSValues c = none) ∧
    versionInRange "1.16.1" = false ∧ versionInRange "1.14.1" = true ∧
    isValidCIDR "1000.96.0.0/12" = false ∧ isValidCIDR "192.1680.1.0/16" = false ∧
    isValidDomainName "hello-World.com" = true ∧
    isValidDomainName "hello-World-.com" = false ∧
    isValidIPv4 "192.1680.1.0" = false ∧
    isValidDomainName "192.1680.1.0" = false := by
  refine ⟨?_, ?_, ?_, ?_, ?_, ?_, ?_, by decide, by decide, by decide, by decide,
    by decide, by decide, by decide, by decide⟩
  · intro h; simp [checkRequiredWKSValues, h]
  · intro h0 h1; simp [checkRequiredWKSValues, h0, h1]
  · intro h0 h1 h2; simp [checkRequiredWKSValues, h0, h1, h2]
  · intro h0 h1 h2 hv; simp [checkRequiredWKSValues, h0, h1, h2, hv]
  · intro b h0 h1 h2 hv hfind
    simp [checkRequiredWKSValues, h0, h1, h2, hv, hfind]
  · intro h0 h1 h2 hv hcidr hlb hip hdom
    have hfind : (c.serviceCIDRBlocks ++ c.podCIDRBlocks).find?
        (fun x => ! isValidCIDR x) = none := by
      rw [List.find?_eq_none]
      intro x hx
      simp [hcidr x hx]
    simp [checkRequiredWKSValues, h0, h1, h2, hv, hfind, hlb, hip, hdom]
  · intro h0 h1 h2 hv hcidr hok
    have hfind : (c.serviceCIDRBlocks ++ c.podCIDRBlocks).find?
        (fun x => ! isValidCIDR x) = none := by
      rw [List.find?_eq_none]
      intro x hx
      simp [hcidr x hx]
    rcases hok with hok | hok | hok <;>
      simp [checkRequiredWKSValues, h0, h1, h2, hv, hfind, hok]

/-- The `invalidControlPlaneLbAddress1` fixture of TestInvalidWKSValues: an
otherwise valid fleet config whose control-plane address "192.1680.1.0" is
neither a valid IPv4 address nor a valid domain name (all-numeric). -/
def invalidLbAddressWKS : WKSConfig :=
  { kubernetesVersion := "1.14.1", serviceCIDRBlocks := ["10.96.0.0/12"],
    podCIDRBlocks := ["192.168.1.0/16"],
    controlPlaneLbAddress := "192.1680.1.0",
    sshConfig := default, footlooseConfig := default }

/-- Closed instance of C3 (amended): the contract applied at the "1.16.1"
fixture, at the valid "1.14.1" fixture, at the all-numeric "192.1680.1.0"
load-balancer fixture (rejected), and at the valid-IP "192.168.1.0"
load-balancer fixture (accepted), hypotheses discharged concretely. -/
theorem checkRequiredWKSValues_contract_witness :
    checkRequiredWKSValues invalidWKSK8sVersion =
      some "1.16.1 is not a valid Kubernetes version; must be 1.14.x-1.15.x" ∧
    checkRequiredWKSValues { invalidWKSK8sVersion with kubernetesVersion := "1.14.1" }
      = none ∧
    checkRequiredWKSValues invalidLbAddressWKS =
      some "192.1680.1.0 is not a valid control plane load balancer address; must be a valid IP address or a domain name" ∧
    checkRequiredWKSValues
        { invalidLbAddressWKS with controlPlaneLbAddress := "192.168.1.0" } = none :=
  ⟨(checkRequiredWKSValues_contract invalidWKSK8sVersion).2.2.2.1
      (by decide) (by decide) (by decide) (by decide),
   (checkRequiredWKSValues_contract _).2.2.2.2.2.2.1
      (by decide) (by decide) (by decide) (by decide)
      (by decide) (Or.inl rfl),
   (checkRequiredWKSValues_contract invalidLbAddressWKS).2.2.2.2.2.1
      (by decide) (by decide) (by decide) (by decide)
      (by decide) (by decide) (by decide) (by decide),
   (checkRequiredWKSValues_contract _).2.2.2.2.2.2.1
      (by decide) (by decide) (by decide) (by decide)
      (by decide) (Or.inr (Or.inl (by decide)))⟩

/-- Master machine of the `validSSH` fixture of TestRequiredSSHValues. -/
def sshMaster : Machine :=
  { role := "master", publicAddress := "172.17.20.5", privateAddress := "",
    publicPort := none, privatePort := none }

/-- Worker machine of the `validSSH` fixture of TestRequiredSSHValues. -/
def sshWorker : Machine :=
  { role := "worker", publicAddress := "172.17.20.6", privateAddress := "",
    publicPort := none, privatePort := none }

/-- The `validSSH` fixture of TestRequiredSSHValues: one master and one
worker, no key file, no user. -/
def validSSH : SSHConfig :=
  { sshUser := "", sshKeyFile := "", machines := [sshMaster, sshWorker] }

/-- The `missingRole` fixture of TestRequiredSSHValues: a machine with no
role followed by a worker — note it contains no master at all. -/
def missingRoleSSH : SSHConfig :=
  { sshUser := "", sshKeyFile := "",
    machines := [{ role := "", publicAddress := "172.17.20.5",
                   privateAddress := "", publicPort := none,
                   privatePort := none }, sshWorker] }

/-- The role scan accepts a machine list in which every role is master or
worker. -/
theorem checkMachineRoles_eq_none (ms : List Machine)
    (h : ∀ m ∈ ms, m.role = "master" ∨ m.role = "worker") :
    checkMachineRoles ms = none := by
  induction ms with
  | nil => rfl
  | cons m rest ih =>
    rcases h m (by simp) with hr | hr <;>
      simp [checkMachineRoles, hr, ih fun x hx => h x (by simp [hx])]

/-- C4 counterexample: on the `missingRole` fixture (whose machine list has
no master) the Remote-Shell Validator reports the missing-role message, not
the master/worker presence message the claim requires for every machine list
without a master — the per-machine role scan takes precedence (this is the
expectation of the in-repo test TestRequiredSSHValues). -/
theorem checkRequiredSSHValues_role_precedence_counterexample :
    countRole "master" missingRoleSSH.machines = 0 ∧
    checkRequiredSSHValues noFileExists missingRoleSSH =
      some "A role (\x27master\x27 or \x27worker\x27) must be specified for each machine" ∧
    checkRequiredSSHValues noFileExists missingRoleSSH ≠
      some "Invalid machine set. At least one master and one worker must be specified." := by
  decide

/-- C4 (amended): the Remote-Shell Validator fails with "No machine
information provided" on an empty machine list; the machines are then
scanned in order, an empty role yielding the missing-role message and a role
outside {master, worker} yielding the invalid-role message (so these
per-machine errors take precedence over the master/worker presence check);
when every machine has a valid role but there is no master or no worker it
fails with the machine-set message; when additionally a set `sshKeyFile`
names a non-existent file it fails with the no-file message; and it succeeds
on a machine list containing at least one master and one worker with those
fields valid. -/
theorem checkRequiredSSHValues_contract (fe : String → Bool) (c : SSHConfig) :
    (c.machines = [] →
      checkRequiredSSHValues fe c = some "No machine information provided") ∧
    (∀ m ms, m.role = "" →
      checkMachineRoles (m :: ms) =
        some "A role (\x27master\x27 or \x27worker\x27) must be specified for each machine") ∧
    (∀ m ms, m.role ≠ "" → m.role ≠ "master" → m.role ≠ "worker" →
      checkMachineRoles (m :: ms) =
        some ("Invalid machine role: \x27" ++ m.role
          ++ "\x27. Only \x27master\x27 and \x27worker\x27 are valid.")) ∧
    (∀ m ms, (m.role = "master" ∨ m.role = "worker") →
      checkMachineRoles (m :: ms) = checkMachineRoles ms) ∧
    (∀ e : String, c.machines ≠ [] → checkMachineRoles c.machines = some e →
      checkRequiredSSHValues fe c = some e) ∧
    (c.machines ≠ [] →
      (∀ m ∈ c.machines, m.role = "master" ∨ m.role = "worker") →
      (countRole "master" c.machines = 0 ∨ countRole "worker" c.machines = 0) →
      checkRequiredSSHValues fe c =
        some "Invalid machine set. At least one master and one worker must be specified.") ∧
    ((∀ m ∈ c.machines, m.role = "master" ∨ m.role = "worker") →
      1 ≤ countRole "master" c.machines → 1 ≤ countRole "worker" c.machines →
      c.sshKeyFile ≠ "" → fe c.sshKeyFile = false →
      checkRequiredSSHValues fe c =
        some ("no file found at path: \"" ++ c.sshKeyFile
          ++ "\" for field: \"sshKeyFile\"")) ∧
    ((∀ m ∈ c.machines, m.role = "master" ∨ m.role = "worker") →
      1 ≤ countRole "master" c.machines → 1 ≤ countRole "worker" c.machines →
      (c.sshKeyFile = "" ∨ fe c.sshKeyFile = true) →
      checkRequiredSSHValues fe c = none) := by
  refine ⟨?_, ?_, ?_, ?_, ?_, ?_, ?_, ?_⟩
  · intro h; simp [checkRequiredSSHValues, h]
  · intro m ms h; simp [checkMachineRoles, h]
  · intro m ms h0 h1 h2; simp [checkMachineRoles, h0, h1, h2]
  · intro m ms h; rcases h with h | h <;> simp [checkMachineRoles, h]
  · intro e hne he; simp [checkRequiredSSHValues, hne, he]
  · intro hne hvalid hcount
    have hnone := checkMachineRoles_eq_none c.machines hvalid
    rcases hcount with hc | hc <;>
      simp [checkRequiredSSHValues, hne, hnone, hc]
  · intro hvalid h1 h2 hkf hfe
    have hne : c.machines ≠ [] := by
      intro h0; rw [h0] at h1; simp [countRole] at h1
    have hnone := checkMachineRoles_eq_none c.machines hvalid
    have hm0 : ¬ countRole "master" c.machines = 0 := by omega
    have hw0 : ¬ countRole "worker" c.machines = 0 := by omega
    simp [checkRequiredSSHValues, hne, hnone, hm0, hw0, hkf, hfe]
  · intro hvalid h1 h2 hok
    have hne : c.machines ≠ [] := by
      intro h0; rw [h0] at h1; simp [countRole] at h1
    have hnone := checkMachineRoles_eq_none c.machines hvalid
    have hm0 : ¬ countRole "master" c.machines = 0 := by omega
    have hw0 : ¬ countRole "worker" c.machines = 0 := by omega
    rcases hok with hok | hok <;>
      simp [checkRequiredSSHValues, hne, hnone, hm0, hw0, hok]

/-- Closed instance of C4 (amended): the contract applied at the `validSSH`
fixture (success) and at the worker-only fixture (machine-set message), with
every hypothesis discharged concretely. -/
theorem checkRequiredSSHValues_contract_witness :
    checkRequiredSSHValues noFileExists validSSH = none ∧
    checkRequiredSSHValues noFileExists { validSSH with machines := [sshWorker] } =
      some "Invalid machine set. At least one master and one worker must be specified." :=
  ⟨(checkRequiredSSHValues_contract noFileExists validSSH).2.2.2.2.2.2.2
      (by decide) (by decide) (by decide) (Or.inl rfl),
   (checkRequiredSSHValues_contract noFileExists _).2.2.2.2.2.1
      (by decide) (by decide) (Or.inl (by decide))⟩

/-- C5: the Virtual-Node Validator succeeds exactly when the backend is one
of the recognized backend identifiers (the spec's abstract enum
{container, micro-vm}, realized as "docker" and "ignite") and both node
counts are at least 1; an empty backend, an unrecognized backend, a
control-plane count below 1 (zero or negative), and a worker count below 1
each yield their exact message, in that order. -/
theorem checkRequiredFootlooseValues_contract (c : FootlooseConfig) :
    (checkRequiredFootlooseValues c = none ↔
      ((c.backend = "docker" ∨ c.backend = "ignite") ∧
        1 ≤ c.controlPlaneNodes ∧ 1 ≤ c.workerNodes)) ∧
    (c.backend = "" →
      checkRequiredFootlooseValues c = some "A footloose backend must be specified") ∧
    (c.backend ≠ "" → c.backend ≠ "docker" → c.backend ≠ "ignite" →
      checkRequiredFootlooseValues c =
        some "A footloose backend must be either \x27docker\x27 or \x27ignite\x27") ∧
    ((c.backend = "docker" ∨ c.backend = "ignite") → c.controlPlaneNodes < 1 →
      checkRequiredFootlooseValues c =
        some "A footloose specification must have at least one control plane node") ∧
    ((c.backend = "docker" ∨ c.backend = "ignite") → 1 ≤ c.controlPlaneNodes →
      c.workerNodes < 1 →
      checkRequiredFootlooseValues c =
        some "A footloose specification must have at least one worker node") := by
  refine ⟨⟨?_, ?_⟩, ?_, ?_, ?_, ?_⟩
  · intro h
    unfold checkRequiredFootlooseValues at h
    split_ifs at h with h1 h2 h3 h4
    all_goals simp at h
    exact ⟨by tauto, by omega, by omega⟩
  · rintro ⟨hb, h1, h2⟩
    have hcp : ¬ c.controlPlaneNodes < 1 := by omega
    have hw : ¬ c.workerNodes < 1 := by omega
    rcases hb with hb | hb <;> simp [checkRequiredFootlooseValues, hb, hcp, hw]
  · intro h; simp [checkRequiredFootlooseValues, h]
  · intro h0 h1 h2; simp [checkRequiredFootlooseValues, h0, h1, h2]
  · rintro (hb | hb) h1 <;> simp [checkRequiredFootlooseValues, hb, h1]
  · rintro (hb | hb) h1 h2 <;>
    · have hcp : ¬ c.controlPlaneNodes < 1 := by omega
      simp [checkRequiredFootlooseValues, hb, hcp, h2]

/-- Closed instance of C5: the contract applied at the `igniter` fixture
(unrecognized backend) and at the valid docker fixture, hypotheses
discharged concretely. -/
theorem checkRequiredFootlooseValues_contract_witness :
    checkRequiredFootlooseValues
        { backend := "igniter", controlPlaneNodes := 1, workerNodes := 1 } =
      some "A footloose backend must be either \x27docker\x27 or \x27ignite\x27" ∧
    checkRequiredFootlooseValues
        { backend := "docker", controlPlaneNodes := 1, workerNodes := 1 } = none :=
  ⟨(checkRequiredFootlooseValues_contract _).2.2.1 (by decide) (by decide) (by decide),
   (checkRequiredFootlooseValues_contract _).1.mpr
      ⟨Or.inl rfl, by decide, by decide⟩⟩

/-- The trivial pairing collaborator under which no key matches any
certificate (the situation of the `nonMatchingKeyCert` fixture). -/
def noPairMatches : String → String → Bool := fun _ _ => false

/-- C6: the Sealed-Secrets Validator succeeds when both the certificate and
the private-key path are empty; reports the "please provide both" message
when exactly one of the two is non-empty (either one); reports "could not
load key and certificate pair" when both are present but the loaded private
key does not correspond to the certificate; and succeeds when both are
present and the pair matches. -/
theorem validateSealedSecretsValues_contract (pm : String → String → Bool)
    (c : Config) :
    (c.sealedSecretsCertificate = "" → c.sealedSecretsPrivateKey = "" →
      validateSealedSecretsValues pm c = none) ∧
    (c.sealedSecretsCertificate = "" → c.sealedSecretsPrivateKey ≠ "" →
      validateSealedSecretsValues pm c =
        some "please provide both the private key and certificate for the sealed secrets controller") ∧
    (c.sealedSecretsCertificate ≠ "" → c.sealedSecretsPrivateKey = "" →
      validateSealedSecretsValues pm c =
        some "please provide both the private key and certificate for the sealed secrets controller") ∧
    (c.sealedSecretsCertificate ≠ "" → c.sealedSecretsPrivateKey ≠ "" →
      pm c.sealedSecretsPrivateKey c.sealedSecretsCertificate = false →
      validateSealedSecretsValues pm c =
        some "could not load key and certificate pair") ∧
    (c.sealedSecretsCertificate ≠ "" → c.sealedSecretsPrivateKey ≠ "" →
      pm c.sealedSecretsPrivateKey c.sealedSecretsCertificate = true →
      validateSealedSecretsValues pm c = none) := by
  refine ⟨?_, ?_, ?_, ?_, ?_⟩
  · intro h0 h1; simp [validateSealedSecretsValues, h0, h1]
  · intro h0 h1; simp [validateSealedSecretsValues, h0, h1]
  · intro h0 h1; simp [validateSealedSecretsValues, h0, h1]
  · intro h0 h1 hpm; simp [validateSealedSecretsValues, h0, h1, hpm]
  · intro h0 h1 hpm; simp [validateSealedSecretsValues, h0, h1, hpm]

/-- Closed instance of C6: the contract applied at the `nonMatchingKeyCert`
fixture (mismatched pair) and at the `KeyNoCert` fixture (key without
certificate), hypotheses discharged concretely. -/
theorem validateSealedSecretsValues_contract_witness :
    validateSealedSecretsValues noPairMatches
        { validTrackEKS with
            sealedSecretsCertificate := "testdata/nonMatchingCert.crt"
            sealedSecretsPrivateKey := "testdata/sealedSecretsKey" } =
      some "could not load key and certificate pair" ∧
    validateSealedSecretsValues noPairMatches
        { validTrackEKS with
            sealedSecretsPrivateKey := "testdata/sealedSecretsKey" } =
      some "please provide both the private key and certificate for the sealed secrets controller" :=
  ⟨(validateSealedSecretsValues_contract noPairMatches _).2.2.2.1
      (by decide) (by decide) rfl,
   (validateSealedSecretsValues_contract noPairMatches _).2.1
      (by decide) (by decide)⟩

/-- Indexed defaulting acts elementwise: entry `i` of the defaulted list is
the original entry defaulted at running index `j + i`. -/
theorem defaultNodeGroupsFrom_get? (j : Nat) (l : List NodeGroup) (i : Nat) :
    (defaultNodeGroupsFrom j l)[i]? = (l[i]?).map (defaultNodeGroup (j + i)) := by
  induction l generalizing j i with
  | nil => simp [defaultNodeGroupsFrom]
  | cons ng rest ih =>
    cases i with
    | zero => simp [defaultNodeGroupsFrom]
    | succ k =>
      have harith : j + 1 + k = j + (k + 1) := by omega
      simp only [defaultNodeGroupsFrom, List.getElem?_cons_succ]
      rw [ih (j + 1) k, harith]

/-- Indexed defaulting preserves the length of the node-group list. -/
theorem defaultNodeGroupsFrom_length (j : Nat) (l : List NodeGroup) :
    (defaultNodeGroupsFrom j l).length = l.length := by
  induction l generalizing j with
  | nil => rfl
  | cons ng rest ih => simp [defaultNodeGroupsFrom, ih]

/-- The synthesized default name "ng-<j>" is never the empty string. -/
theorem ngName_ne_empty (j : Nat) : ("ng-" ++ toString j) ≠ "" := by
  intro h
  have hlen := congrArg String.length h
  rw [String.length_append] at hlen
  have h3 : ("ng-" : String).length = 3 := by decide
  have h0 : ("" : String).length = 0 := by decide
  rw [h3, h0] at hlen
  omega

/-- Defaulting a node group twice at the same index changes nothing: the
assigned name is non-empty and the assigned capacity is set. -/
theorem defaultNodeGroup_idem (j : Nat) (ng : NodeGroup) :
    defaultNodeGroup j (defaultNodeGroup j ng) = defaultNodeGroup j ng := by
  unfold defaultNodeGroup
  by_cases hn : ng.name = "" <;>
    cases hcap : ng.desiredCapacity <;>
      simp [hn, hcap, ngName_ne_empty j]

/-- Indexed defaulting of the whole list is idempotent. -/
theorem defaultNodeGroupsFrom_idem (j : Nat) (l : List NodeGroup) :
    defaultNodeGroupsFrom j (defaultNodeGroupsFrom j l) = defaultNodeGroupsFrom j l := by
  induction l generalizing j with
  | nil => rfl
  | cons ng rest ih => simp [defaultNodeGroupsFrom, defaultNodeGroup_idem, ih]

/-- The `validEKS` fixture of TestDefaultEKSValues: a valid managed-cloud
configuration with no node groups. -/
def validEKSConfig : EKSConfig :=
  { kubernetesVersion := "1.14", clusterRegion := "eu-north-1",
    managedNodeGroupFile := "testdata/managedNodeGroups.yaml", nodeGroups := [] }

/-- The `nodeGroupNeedsDefaults` fixture of TestDefaultEKSValues: two node
groups carrying only instance types. -/
def nodeGroupNeedsDefaults : EKSConfig :=
  { kubernetesVersion := "1.14", clusterRegion := "eu-north-1",
    managedNodeGroupFile := "",
    nodeGroups := [{ name := "", instanceType := "m5.small", desiredCapacity := none },
                   { name := "", instanceType := "m5.large", desiredCapacity := none }] }

/-- C7: the Managed-Cloud Defaulter turns an empty node-group list into
exactly [{name "ng-0", instanceType "m5.large", desiredCapacity 3}]; on a
non-empty list it keeps the length and, at each index i, assigns the name
"ng-<i>" only when the name is missing, assigns capacity 3 only when the
capacity is missing, and preserves the instance type exactly as given. -/
theorem setDefaultEKSValues_contract (c : EKSConfig) :
    (c.nodeGroups = [] →
      (setDefaultEKSValues c).nodeGroups =
        [{ name := "ng-0", instanceType := "m5.large", desiredCapacity := some 3 }]) ∧
    (c.nodeGroups ≠ [] →
      (setDefaultEKSValues c).nodeGroups.length = c.nodeGroups.length) ∧
    (∀ i : Nat, ∀ ng : NodeGroup, c.nodeGroups[i]? = some ng →
      (setDefaultEKSValues c).nodeGroups[i]? =
        some { name := if ng.name = "" then "ng-" ++ toString i else ng.name
               instanceType := ng.instanceType
               desiredCapacity :=
                 match ng.desiredCapacity with
                 | none => some 3
                 | some n => some n }) := by
  refine ⟨?_, ?_, ?_⟩
  · intro h; simp [setDefaultEKSValues, h]
  · intro h; simp [setDefaultEKSValues, h, defaultNodeGroupsFrom_length]
  · intro i ng hg
    have hne : c.nodeGroups ≠ [] := by
      intro h0; rw [h0] at hg; simp at hg
    simp [setDefaultEKSValues, hne, defaultNodeGroupsFrom_get?, hg, defaultNodeGroup]

/-- Closed instance of C7: the contract applied at the `validEKS` fixture
(no node groups) and at index 1 of `nodeGroupNeedsDefaults`, hypotheses
discharged concretely. -/
theorem setDefaultEKSValues_contract_witness :
    (setDefaultEKSValues validEKSConfig).nodeGroups =
      [{ name := "ng-0", instanceType := "m5.large", desiredCapacity := some 3 }] ∧
    (setDefaultEKSValues nodeGroupNeedsDefaults).nodeGroups[1]? =
      some { name := "ng-1", instanceType := "m5.large", desiredCapacity := some 3 } :=
  ⟨(setDefaultEKSValues_contract validEKSConfig).1 rfl,
   (setDefaultEKSValues_contract nodeGroupNeedsDefaults).2.2 1
      { name := "", instanceType := "m5.large", desiredCapacity := none } rfl⟩

/-- C9: the Managed-Cloud Defaulter is idempotent — running it on a
configuration on which it has already run changes nothing (in particular
`nodeGroups` is unchanged: names and capacities already set are never
overridden). -/
theorem setDefaultEKSValues_idem (c : EKSConfig) :
    setDefaultEKSValues (setDefaultEKSValues c) = setDefaultEKSValues c := by
  by_cases h : c.nodeGroups = []
  · simp [setDefaultEKSValues, h, defaultNodeGroupsFrom, defaultNodeGroup]
  · have hne2 : defaultNodeGroupsFrom 0 c.nodeGroups ≠ [] := by
      intro h0
      have hlen := congrArg List.length h0
      rw [defaultNodeGroupsFrom_length] at hlen
      exact h (List.length_eq_zero.mp hlen)
    simp [setDefaultEKSValues, h, hne2, defaultNodeGroupsFrom_idem]

/-- C8: the Remote-Shell Defaulter sets `sshUser` to "root" and `sshKeyFile`
to `<home-directory>/.ssh/id_rsa` exactly when they are omitted (operator
values kept otherwise), and maps each machine to itself with an omitted
public/private port set to 22 and an omitted private address set to that
machine's own public address (role and public address untouched). -/
theorem setDefaultSSHValues_contract (home : String) (c : SSHConfig) :
    (c.sshUser = "" → (setDefaultSSHValues home c).sshUser = "root") ∧
    (c.sshUser ≠ "" → (setDefaultSSHValues home c).sshUser = c.sshUser) ∧
    (c.sshKeyFile = "" →
      (setDefaultSSHValues home c).sshKeyFile = home ++ "/.ssh/id_rsa") ∧
    (c.sshKeyFile ≠ "" →
      (setDefaultSSHValues home c).sshKeyFile = c.sshKeyFile) ∧
    ((setDefaultSSHValues home c).machines.length = c.machines.length) ∧
    (∀ i : Nat, ∀ m : Machine, c.machines[i]? = some m →
      (setDefaultSSHValues home c).machines[i]? =
        some { role := m.role
               publicAddress := m.publicAddress
               privateAddress :=
                 if m.privateAddress = "" then m.publicAddress else m.privateAddress
               publicPort :=
                 match m.publicPort with
                 | none => some 22
                 | some p => some p
               privatePort :=
                 match m.privatePort with
                 | none => some 22
                 | some p => some p }) := by
  refine ⟨?_, ?_, ?_, ?_, ?_, ?_⟩
  · intro h; simp [setDefaultSSHValues, h]
  · intro h; simp [setDefaultSSHValues, h]
  · intro h; simp [setDefaultSSHValues, h]
  · intro h; simp [setDefaultSSHValues, h]
  · simp [setDefaultSSHValues]
  · intro i m hg
    simp [setDefaultSSHValues, List.getElem?_map, hg, defaultMachine]

/-- Closed instance of C8: the contract applied at the `validSSH` fixture
(scenario (d) of the spec), hypotheses discharged concretely. -/
theorem setDefaultSSHValues_contract_witness :
    (setDefaultSSHValues "/home/wk" validSSH).sshUser = "root" ∧
    (setDefaultSSHValues "/home/wk" validSSH).sshKeyFile = "/home/wk/.ssh/id_rsa" ∧
    (setDefaultSSHValues "/home/wk" validSSH).machines[0]? =
      some { role := "master", publicAddress := "172.17.20.5",
             privateAddress := "172.17.20.5", publicPort := some 22,
             privatePort := some 22 } :=
  ⟨(setDefaultSSHValues_contract "/home/wk" validSSH).1 rfl,
   (setDefaultSSHValues_contract "/home/wk" validSSH).2.2.1 rfl,
   (setDefaultSSHValues_contract "/home/wk" validSSH).2.2.2.2.2 0 sshMaster rfl⟩

/-- C10: the Global Defaulter sets an empty cluster name to "wk-" followed
by the USER environment value, falling back to "wk-cluster" when USER is
empty or unset — the defaulted name always carries the "wk-" prefix. -/
theorem setDefaultGlobalValues_contract (user : String) (c : Config) :
    (c.clusterName = "" →
      (setDefaultGlobalValues user c).clusterName =
        "wk-" ++ (if user = "" then "cluster" else user)) ∧
    (c.clusterName = "" → user = "" →
      (setDefaultGlobalValues user c).clusterName = "wk-cluster") ∧
    (c.clusterName = "" → user ≠ "" →
      (setDefaultGlobalValues user c).clusterName = "wk-" ++ user) := by
  refine ⟨?_, ?_, ?_⟩
  · intro h; simp [setDefaultGlobalValues, h]
  · intro h hu; simp [setDefaultGlobalValues, h, hu]
  · intro h hu; simp [setDefaultGlobalValues, h, hu]

/-- Closed instance of C10: the contract applied at `validTrackEKS` (empty
cluster name) with USER unset and with USER "TheodoreLogan", hypotheses
discharged concretely. -/
theorem setDefaultGlobalValues_contract_witness :
    (setDefaultGlobalValues "" validTrackEKS).clusterName = "wk-cluster" ∧
    (setDefaultGlobalValues "TheodoreLogan" validTrackEKS).clusterName =
      "wk-TheodoreLogan" :=
  ⟨(setDefaultGlobalValues_contract "" validTrackEKS).2.1 rfl rfl,
   (setDefaultGlobalValues_contract "TheodoreLogan" validTrackEKS).2.2 rfl
      (by decide)⟩

end WKConfig
